import Mathlib

/-
  Verification of the dfdaemon grpc layer (src/grpc/dfdaemon.rs) of the
  dragonfly client: a shallow embedding of the service handler, the
  transport lifecycle and the typed client wrapper, with theorems about
  the streaming pipelines, the unary handlers and the client-side
  timeout policy.

  External collaborators (the piece store, the download engine, the
  scheduler client) are modelled by the interface the source calls:
  records of functions returning `Except`/`Option`, quantified over in
  the theorems.
-/

set_option autoImplicit false

deriving instance DecidableEq for Except

namespace Dfdaemon

/-! ## Wire-level data model (dragonfly_api protos and tonic status) -/

/-- The grpc status codes this layer produces (tonic::Status). -/
inductive Code where
  | invalidArgument
  | notFound
  | internal
  | unimplemented
  deriving DecidableEq, Repr

/-- tonic::Status: a code together with a message. -/
structure Status where
  code : Code
  message : String
  deriving DecidableEq, Repr

/-- Status::invalid_argument. -/
def Status.invalid_argument (m : String) : Status :=
  { code := Code.invalidArgument, message := m }

/-- Status::not_found. -/
def Status.not_found (m : String) : Status :=
  { code := Code.notFound, message := m }

/-- Status::internal. -/
def Status.internal (m : String) : Status :=
  { code := Code.internal, message := m }

/-- Status::unimplemented. -/
def Status.unimplemented (m : String) : Status :=
  { code := Code.unimplemented, message := m }

/-- prost_wkt_types::Duration: seconds (i64) and nanos (i32) as sent on the
wire; may denote a negative duration. -/
structure ProstDuration where
  seconds : Int
  nanos : Int
  deriving DecidableEq, Repr

/-- std::time::Duration: a non-negative duration of whole seconds (u64) and
subsecond nanoseconds (u32). -/
structure StdDuration where
  secs : Nat
  nanos : Nat
  deriving DecidableEq, Repr

/-- prost_wkt_types::Duration::normalize, with Rust's truncating integer
division (Int.tdiv / Int.tmod): carry whole seconds out of the nanos field,
then make nanos agree in sign with seconds. -/
def ProstDuration.normalize (d : ProstDuration) : ProstDuration :=
  let nps : Int := 1000000000
  let d :=
    if d.nanos ≤ -nps ∨ nps ≤ d.nanos then
      { seconds := d.seconds + d.nanos.tdiv nps, nanos := d.nanos.tmod nps }
    else d
  if d.nanos < 0 ∧ 0 < d.seconds then
    { seconds := d.seconds - 1, nanos := d.nanos + nps }
  else if 0 < d.nanos ∧ d.seconds < 0 then
    { seconds := d.seconds + 1, nanos := d.nanos - nps }
  else d

/-- std::time::Duration::try_from(prost_wkt_types::Duration): normalize, then
succeed exactly when the result is non-negative. -/
def StdDuration.tryFromProst (d : ProstDuration) : Option StdDuration :=
  let d := d.normalize
  if 0 ≤ d.seconds ∧ 0 ≤ d.nanos then
    some { secs := d.seconds.toNat, nanos := d.nanos.toNat }
  else none

/-- prost_wkt_types::Duration::from(std::time::Duration). -/
def ProstDuration.fromStd (d : StdDuration) : ProstDuration :=
  { seconds := Int.ofNat d.secs, nanos := Int.ofNat d.nanos }

/-- prost_wkt_types::Timestamp (seconds i64, nanos i32). -/
structure Timestamp where
  seconds : Int
  nanos : Int
  deriving DecidableEq, Repr

/-- common.v2.Piece, the wire descriptor carried by both streaming
responses. `content` is bytes (Vec of u8). -/
structure Piece where
  number : Int
  parent_id : Option String
  offset : Nat
  length : Nat
  digest : String
  content : Option (List Nat)
  traffic_type : Option Int
  cost : Option ProstDuration
  created_at : Option Timestamp
  deriving DecidableEq, Repr

/-- dfdaemon.v2.GetPieceNumbersRequest. -/
structure GetPieceNumbersRequest where
  task_id : String
  deriving DecidableEq, Repr

/-- dfdaemon.v2.GetPieceNumbersResponse. -/
structure GetPieceNumbersResponse where
  piece_numbers : List Int
  deriving DecidableEq, Repr

/-- dfdaemon.v2.InterestedPiecesRequest. -/
structure InterestedPiecesRequest where
  piece_numbers : List Int
  deriving DecidableEq, Repr

/-- The payload oneof of dfdaemon.v2.SyncPiecesRequest
(sync_pieces_request::Request); the interested-pieces variant is the only
variant of the oneof, so the only other request shape is its absence. -/
inductive SyncPiecesRequestPayload where
  | interestedPiecesRequest (r : InterestedPiecesRequest)
  deriving DecidableEq, Repr

/-- dfdaemon.v2.SyncPiecesRequest. -/
structure SyncPiecesRequest where
  task_id : String
  request : Option SyncPiecesRequestPayload
  deriving DecidableEq, Repr

/-- dfdaemon.v2.InterestedPiecesResponse. -/
structure InterestedPiecesResponse where
  piece : Option Piece
  deriving DecidableEq, Repr

/-- The payload oneof of dfdaemon.v2.SyncPiecesResponse
(sync_pieces_response::Response). -/
inductive SyncPiecesResponsePayload where
  | interestedPiecesResponse (r : InterestedPiecesResponse)
  deriving DecidableEq, Repr

/-- dfdaemon.v2.SyncPiecesResponse. -/
structure SyncPiecesResponse where
  response : Option SyncPiecesResponsePayload
  deriving DecidableEq, Repr

/-- common.v2.Download: the download parameters block of a
DownloadTaskRequest. Only the timeout field is inspected by this layer;
the remaining proto fields are carried opaquely to the engine and are
summarized by `url` and `piece_length` here. -/
structure Download where
  url : String
  piece_length : Nat
  timeout : Option ProstDuration
  deriving DecidableEq, Repr

/-- dfdaemon.v2.DownloadTaskRequest. -/
structure DownloadTaskRequest where
  download : Option Download
  deriving DecidableEq, Repr

/-- dfdaemon.v2.DownloadTaskResponse. -/
structure DownloadTaskResponse where
  piece : Option Piece
  deriving DecidableEq, Repr

/-- dfdaemon.v2.UploadTaskRequest. -/
structure UploadTaskRequest where
  task_id : String
  deriving DecidableEq, Repr

/-- dfdaemon.v2.DeleteTaskRequest. -/
structure DeleteTaskRequest where
  task_id : String
  deriving DecidableEq, Repr

/-- dfdaemon.v2.StatTaskRequest. -/
structure DfdaemonStatTaskRequest where
  task_id : String
  deriving DecidableEq, Repr

/-- scheduler.v2.StatTaskRequest. -/
structure SchedulerStatTaskRequest where
  id : String
  deriving DecidableEq, Repr

/-- common.v2.Task, the scheduler's stat response; proxied unchanged by this
layer, so only the id is spelled out here. -/
structure Task where
  id : String
  deriving DecidableEq, Repr

/-! ## External collaborators, modelled by the interface the source calls -/

/-- Piece metadata held by the local store (the task manager's piece
metadata, as consumed at the call sites in this file). -/
structure PieceMetadata where
  number : Int
  offset : Nat
  length : Nat
  digest : String
  deriving DecidableEq, Repr

/-- A content reader obtained from local storage, modelled by the one
operation this layer performs on it: read_to_end, which yields the full
content bytes or an I/O error. -/
structure ContentReader where
  read_to_end : Except String (List Nat)

/-- The local piece store (task.piece), modelled by the three operations the
handler calls: get_all (enumerate a task's piece metadata), get (one piece's
metadata, Option for absence), and download_from_local_peer (open a content
reader). Each returns Except to model a store/I-O failure. -/
structure PieceStore where
  get_all : String → Except String (List PieceMetadata)
  get : String → Int → Except String (Option PieceMetadata)
  download_from_local_peer : String → Int → Except String ContentReader

/-! ## Service handler: GetPieceNumbers -/

/-- DfdaemonServerHandler::get_piece_numbers: enumerate the task's pieces
from the store, map a store failure to INTERNAL, map an empty enumeration to
NOT_FOUND, and otherwise return the stored piece numbers in store order. -/
def DfdaemonServerHandler.get_piece_numbers (store : PieceStore)
    (request : GetPieceNumbersRequest) : Except Status GetPieceNumbersResponse :=
  match store.get_all request.task_id with
  | .error e => .error (Status.internal e)
  | .ok pieces =>
    let piece_numbers : List Int := pieces.map (fun piece => piece.number)
    if piece_numbers.isEmpty then
      .error (Status.not_found "piece numbers not found")
    else
      .ok { piece_numbers := piece_numbers }

/-! ## Service handler: SyncPieces -/

/-- One iteration of the sync_pieces producer loop for one interested piece
number: fetch the metadata (skip on store error or absence), open the
content reader (skip on failure), read the content (skip on failure), and
otherwise build the one stream item the loop sends. `none` is the loop's
`continue`. -/
def syncPiecesItem (store : PieceStore) (task_id : String)
    (interested_piece_number : Int) : Option SyncPiecesResponse :=
  match store.get task_id interested_piece_number with
  | .error _ => none
  | .ok none => none
  | .ok (some piece) =>
    match store.download_from_local_peer task_id interested_piece_number with
    | .error _ => none
    | .ok reader =>
      match reader.read_to_end with
      | .error _ => none
      | .ok content =>
        some { response := some (SyncPiecesResponsePayload.interestedPiecesResponse
          { piece := some {
              number := piece.number
              parent_id := none
              offset := piece.offset
              length := piece.length
              digest := piece.digest
              content := some content
              traffic_type := none
              cost := none
              created_at := none } }) }

/-- The detached sync_pieces producer: iterate the interested piece numbers
in request order, skipping each number whose item construction fails and
sending the item otherwise; the resulting list is the full content of the
outbound stream, which closes when the loop finishes. -/
def syncPiecesProducer (store : PieceStore) (task_id : String) :
    List Int → List SyncPiecesResponse
  | [] => []
  | n :: rest =>
    match syncPiecesItem store task_id n with
    | none => syncPiecesProducer store task_id rest
    | some item => item :: syncPiecesProducer store task_id rest

/-- DfdaemonServerHandler::sync_pieces: reject a request without the
interested-pieces payload with INVALID_ARGUMENT before any stream exists;
otherwise the stream's content is the producer's output. -/
def DfdaemonServerHandler.sync_pieces (store : PieceStore)
    (request : SyncPiecesRequest) : Except Status (List SyncPiecesResponse) :=
  match request.request with
  | some (SyncPiecesRequestPayload.interestedPiecesRequest r) =>
    .ok (syncPiecesProducer store request.task_id r.piece_numbers)
  | none =>
    .error (Status.invalid_argument "missing interested pieces request")

/-! ## Basic lemmas about the sync_pieces producer -/

theorem syncPiecesProducer_eq_filterMap (store : PieceStore) (task_id : String)
    (ns : List Int) :
    syncPiecesProducer store task_id ns = ns.filterMap (syncPiecesItem store task_id) := by
  induction ns with
  | nil => rfl
  | cons n rest ih =>
    simp only [syncPiecesProducer, List.filterMap_cons]
    cases h : syncPiecesItem store task_id n <;> simp [ih]

theorem map_some_filterMap_sublist {α β : Type} (f : α → Option β) (l : List α) :
    List.Sublist ((l.filterMap f).map some) (l.map f) := by
  induction l with
  | nil => simp
  | cons a l ih =>
    simp only [List.filterMap_cons, List.map_cons]
    cases h : f a with
    | none => simpa using ih.cons none
    | some b => simpa using ih.cons₂ (some b)

/-! ## Service handler: DownloadTask -/

/-- A completed-piece progress event, as delivered on the download engine's
progress channel and consumed by this layer: piece metadata plus cost and
completion time (finished_piece.cost() yields an optional std duration,
finished_piece.created_at converts to a wire timestamp). -/
structure FinishedPiece where
  number : Int
  offset : Nat
  length : Nat
  digest : String
  cost : Option StdDuration
  created_at : Timestamp
  deriving DecidableEq, Repr

/-- The observable outcome of task.download_into_file at its call site:
either the invocation fails (the Err branch of the handler's match), or it
yields a progress channel whose delivered events are a finite list (the
channel closes after the last event). -/
def DownloadOutcome : Type := Except String (List FinishedPiece)

/-- The one success stream item the download_task producer sends for one
completed-piece event: the descriptor without content, with cost converted
to a wire duration and created_at to a wire timestamp. -/
def downloadPieceItem (finished_piece : FinishedPiece) :
    Except Status DownloadTaskResponse :=
  .ok { piece := some {
    number := finished_piece.number
    parent_id := none
    offset := finished_piece.offset
    length := finished_piece.length
    digest := finished_piece.digest
    content := none
    traffic_type := none
    cost := finished_piece.cost.map ProstDuration.fromStd
    created_at := some finished_piece.created_at } }

/-- The detached download_task producer: on a successful invocation, relay
every event delivered on the progress channel, in channel order, as a
success item until the channel closes; on a failed invocation, send exactly
one INTERNAL error item and stop. The resulting list is the full content of
the outbound stream. -/
def downloadTaskRelay : DownloadOutcome → List (Except Status DownloadTaskResponse)
  | .ok finished_pieces => finished_pieces.map downloadPieceItem
  | .error e => [.error (Status.internal e)]

/-- DfdaemonServerHandler::download_task: reject a request without the
download parameters with INVALID_ARGUMENT before any producer is spawned;
otherwise spawn the producer on the engine's outcome for those parameters.
The engine (task.download_into_file) is quantified as a function from the
download parameters to its observable outcome. -/
def DfdaemonServerHandler.download_task (engine : Download → DownloadOutcome)
    (request : DownloadTaskRequest) :
    Except Status (List (Except Status DownloadTaskResponse)) :=
  match request.download with
  | none => .error (Status.invalid_argument "missing download")
  | some download => .ok (downloadTaskRelay (engine download))

/-- Whether a stream item is an error item. -/
def isErrorItem : Except Status DownloadTaskResponse → Bool
  | .error _ => true
  | .ok _ => false

/-! ## Service handler: StatTask, UploadTask, DeleteTask -/

/-- Modelled from the spec: REQUEST_TIMEOUT, the fixed short request timeout
applied to every unary and stream-setup call. The constant lives in the grpc
module root, which is not among the provided sources; the spec fixes its
existence and role ("a fixed short timeout") but not its magnitude, so the
value below is a stand-in and no theorem depends on it. -/
def REQUEST_TIMEOUT : StdDuration :=
  { secs := 10, nanos := 0 }

/-- A tonic::Request as built by this layer: the message together with the
deadline set on it (none when set_timeout was never called, i.e. the call is
unbounded). -/
structure BuiltRequest (α : Type) where
  message : α
  timeout : Option StdDuration
  deriving DecidableEq, Repr

/-- A connected scheduler grpc client, modelled by the one call this layer
makes on it: stat_task on a built request, returning the scheduler's
response or a grpc status. -/
structure SchedulerConn where
  stat_task : BuiltRequest SchedulerStatTaskRequest → Except Status Task

/-- The scheduler client handle (task.scheduler_client), modelled by its
client() accessor: a connection or a connection error. -/
structure SchedulerClient where
  client : Except String SchedulerConn

/-- DfdaemonServerHandler::stat_task: re-wrap the task id into the
scheduler's own request shape, set the fixed short timeout on it, map a
connection failure to INTERNAL, and otherwise forward and return the
scheduler's response unchanged. -/
def DfdaemonServerHandler.stat_task (scheduler_client : SchedulerClient)
    (request : DfdaemonStatTaskRequest) : Except Status Task :=
  let request : BuiltRequest SchedulerStatTaskRequest :=
    { message := { id := request.task_id }, timeout := some REQUEST_TIMEOUT }
  match scheduler_client.client with
  | .error e => .error (Status.internal e)
  | .ok conn => conn.stat_task request

/-- DfdaemonServerHandler::upload_task: always UNIMPLEMENTED. -/
def DfdaemonServerHandler.upload_task (request : UploadTaskRequest) :
    Except Status Unit :=
  .error (Status.unimplemented "not implemented")

/-- DfdaemonServerHandler::delete_task: always UNIMPLEMENTED. -/
def DfdaemonServerHandler.delete_task (request : DeleteTaskRequest) :
    Except Status Unit :=
  .error (Status.unimplemented "not implemented")

/-! ## Transport lifecycle: DfdaemonServer::run -/

/-- The externally observable lifecycle events of the two transports. -/
inductive ServerEvent where
  | networkServing
  | networkStopped
  | unixServing
  | unixStopped
  deriving DecidableEq, Repr

/-- One serve_with_shutdown phase: the transport starts serving and stops
when its own shutdown receiver fires. -/
def serveUntilShutdown (start stop : ServerEvent) : List ServerEvent :=
  [start, stop]

/-- The event trace of DfdaemonServer::run as written: the network (upload)
server is served and awaited to completion first, and only then is the unix
domain socket bound and its (download) server served — the two phases are
sequential statements in the function body, not concurrent tasks. -/
def DfdaemonServer.run : List ServerEvent :=
  serveUntilShutdown ServerEvent.networkServing ServerEvent.networkStopped ++
    serveUntilShutdown ServerEvent.unixServing ServerEvent.unixStopped

/-- A transport with start event `start` and stop event `stop` is live after
the first `i` events of trace `tr` when it has started and not yet
stopped. -/
def liveAt (tr : List ServerEvent) (i : Nat) (start stop : ServerEvent) : Prop :=
  start ∈ tr.take i ∧ stop ∉ tr.take i

instance (tr : List ServerEvent) (i : Nat) (start stop : ServerEvent) :
    Decidable (liveAt tr i start stop) := by
  unfold liveAt; infer_instance

/-! ## Client wrapper: DfdaemonClient -/

/-- DfdaemonClient::get_piece_numbers, as the request it issues: the fixed
short timeout is set on every such call. -/
def DfdaemonClient.get_piece_numbers (request : GetPieceNumbersRequest) :
    BuiltRequest GetPieceNumbersRequest :=
  { message := request, timeout := some REQUEST_TIMEOUT }

/-- DfdaemonClient::sync_pieces, as the request it issues: the fixed short
timeout is set on every such call. -/
def DfdaemonClient.sync_pieces (request : SyncPiecesRequest) :
    BuiltRequest SyncPiecesRequest :=
  { message := request, timeout := some REQUEST_TIMEOUT }

/-- DfdaemonClient::upload_task, as the request it issues. -/
def DfdaemonClient.upload_task (request : UploadTaskRequest) :
    BuiltRequest UploadTaskRequest :=
  { message := request, timeout := some REQUEST_TIMEOUT }

/-- DfdaemonClient::stat_task, as the request it issues. -/
def DfdaemonClient.stat_task (request : DfdaemonStatTaskRequest) :
    BuiltRequest DfdaemonStatTaskRequest :=
  { message := request, timeout := some REQUEST_TIMEOUT }

/-- DfdaemonClient::delete_task, as the request it issues. -/
def DfdaemonClient.delete_task (request : DeleteTaskRequest) :
    BuiltRequest DeleteTaskRequest :=
  { message := request, timeout := some REQUEST_TIMEOUT }

/-- DfdaemonClient::download_task, up to the point the RPC is issued: fail
locally with INVALID_ARGUMENT when the download parameters are absent (no
request is built, so no RPC is issued); otherwise build the request, setting
its deadline to the converted embedded timeout when one is present (failing
locally when the conversion fails) and setting no deadline at all when none
is embedded. -/
def DfdaemonClient.download_task (request : DownloadTaskRequest) :
    Except Status (BuiltRequest DownloadTaskRequest) :=
  match request.download with
  | none => .error (Status.invalid_argument "missing download in download task request")
  | some download =>
    match download.timeout with
    | none => .ok { message := request, timeout := none }
    | some timeout =>
      match StdDuration.tryFromProst timeout with
      | none => .error (Status.invalid_argument "invalid timeout")
      | some d => .ok { message := request, timeout := some d }

/-! ## Claim theorems -/

/-- Claim C1: for every SyncPieces call with interested piece numbers
[n1..nk], the stream is exactly the in-order filterMap of the per-number
item construction, so it emits at most one item per requested number
(length at most k), the items appear in request order (the emitted items
are a sublist of the per-number results in request order), a number whose
metadata lookup, reader open or content read fails is silently omitted
without aborting the stream (the producer on ns1 ++ n :: ns2 with n failing
is the producer on ns1 followed by the producer on ns2), and the stream is
the producer's total, finite output, closing after all k numbers are
processed. -/
theorem sync_pieces_stream_ordered_besteffort (store : PieceStore)
    (request : SyncPiecesRequest) (r : InterestedPiecesRequest)
    (h : request.request = some (SyncPiecesRequestPayload.interestedPiecesRequest r))
    (ns₁ ns₂ : List Int) (n : Int) :
    DfdaemonServerHandler.sync_pieces store request =
      .ok (r.piece_numbers.filterMap (syncPiecesItem store request.task_id))
    ∧ (syncPiecesProducer store request.task_id r.piece_numbers).length ≤
        r.piece_numbers.length
    ∧ List.Sublist
        ((syncPiecesProducer store request.task_id r.piece_numbers).map some)
        (r.piece_numbers.map (syncPiecesItem store request.task_id))
    ∧ (syncPiecesItem store request.task_id n = none →
        syncPiecesProducer store request.task_id (ns₁ ++ n :: ns₂) =
          syncPiecesProducer store request.task_id ns₁ ++
            syncPiecesProducer store request.task_id ns₂)
    ∧ (∀ m e, store.get request.task_id m = .error e →
        syncPiecesItem store request.task_id m = none)
    ∧ (∀ m, store.get request.task_id m = .ok none →
        syncPiecesItem store request.task_id m = none)
    ∧ (∀ m e, store.download_from_local_peer request.task_id m = .error e →
        syncPiecesItem store request.task_id m = none)
    ∧ (∀ m reader e, store.download_from_local_peer request.task_id m = .ok reader →
        reader.read_to_end = .error e →
        syncPiecesItem store request.task_id m = none) := by
  refine ⟨?_, ?_, ?_, ?_, ?_, ?_, ?_, ?_⟩
  · simp [DfdaemonServerHandler.sync_pieces, h, syncPiecesProducer_eq_filterMap]
  · rw [syncPiecesProducer_eq_filterMap]
    exact List.length_filterMap_le _ _
  · rw [syncPiecesProducer_eq_filterMap]
    exact map_some_filterMap_sublist _ _
  · intro hn
    rw [syncPiecesProducer_eq_filterMap, syncPiecesProducer_eq_filterMap,
      syncPiecesProducer_eq_filterMap, List.filterMap_append, List.filterMap_cons, hn]
  · intro m e hm
    simp [syncPiecesItem, hm]
  · intro m hm
    simp [syncPiecesItem, hm]
  · intro m e hm
    unfold syncPiecesItem
    cases hg : store.get request.task_id m with
    | error _ => rfl
    | ok p =>
      cases p with
      | none => rfl
      | some piece => simp [hm]
  · intro m reader e hm hr
    unfold syncPiecesItem
    cases hg : store.get request.task_id m with
    | error _ => rfl
    | ok p =>
      cases p with
      | none => rfl
      | some piece => simp [hm, hr]

/-- A concrete store for evaluating the sync_pieces pipeline on task "t":
pieces 0 and 2 are fully readable; piece 1's metadata lookup fails with a
store error, piece 3 is absent, piece 4's content reader fails to open, and
piece 5's content read fails. -/
def syncStore : PieceStore where
  get_all := fun task_id =>
    if task_id = "t" then
      .ok [{ number := 0, offset := 0, length := 4, digest := "d0" },
           { number := 2, offset := 8, length := 4, digest := "d2" }]
    else .ok []
  get := fun task_id n =>
    if task_id = "t" then
      if n = 0 then .ok (some { number := 0, offset := 0, length := 4, digest := "d0" })
      else if n = 1 then .error "store failure"
      else if n = 2 then .ok (some { number := 2, offset := 8, length := 4, digest := "d2" })
      else if n = 4 then .ok (some { number := 4, offset := 16, length := 4, digest := "d4" })
      else if n = 5 then .ok (some { number := 5, offset := 20, length := 4, digest := "d5" })
      else .ok none
    else .ok none
  download_from_local_peer := fun task_id n =>
    if task_id = "t" then
      if n = 4 then .error "open failure"
      else if n = 5 then .ok { read_to_end := .error "read failure" }
      else .ok { read_to_end := .ok [n.toNat, 1, 2, 3] }
    else .error "open failure"

theorem sync_pieces_stream_ordered_besteffort_witness :
    DfdaemonServerHandler.sync_pieces syncStore
        { task_id := "t"
          request := some (SyncPiecesRequestPayload.interestedPiecesRequest
            { piece_numbers := [0, 1, 2, 3, 4, 5] }) } =
      .ok [{ response := some (SyncPiecesResponsePayload.interestedPiecesResponse
              { piece := some {
                  number := 0, parent_id := none, offset := 0, length := 4
                  digest := "d0", content := some [0, 1, 2, 3]
                  traffic_type := none, cost := none, created_at := none } }) },
            { response := some (SyncPiecesResponsePayload.interestedPiecesResponse
              { piece := some {
                  number := 2, parent_id := none, offset := 8, length := 4
                  digest := "d2", content := some [2, 1, 2, 3]
                  traffic_type := none, cost := none, created_at := none } }) }] ∧
    syncPiecesProducer syncStore "t" ([0] ++ 1 :: [2]) =
      syncPiecesProducer syncStore "t" [0] ++ syncPiecesProducer syncStore "t" [2] := by
  have h := sync_pieces_stream_ordered_besteffort syncStore
    { task_id := "t"
      request := some (SyncPiecesRequestPayload.interestedPiecesRequest
        { piece_numbers := [0, 1, 2, 3, 4, 5] }) }
    { piece_numbers := [0, 1, 2, 3, 4, 5] } rfl [0] [2] 1
  exact ⟨h.1.trans (by decide), h.2.2.2.1 (by decide)⟩

/-- Claim C2: GetPieceNumbers returns NOT_FOUND exactly when the store's
enumeration for the task id is empty; on a non-empty enumeration it returns
exactly the stored piece numbers in store order (no sorting or reordering),
and a store enumeration failure yields INTERNAL. -/
theorem get_piece_numbers_notfound_iff_empty (store : PieceStore)
    (request : GetPieceNumbersRequest) :
    ((∃ m, DfdaemonServerHandler.get_piece_numbers store request =
        .error (Status.not_found m)) ↔ store.get_all request.task_id = .ok [])
    ∧ (∀ pieces, store.get_all request.task_id = .ok pieces → pieces ≠ [] →
        DfdaemonServerHandler.get_piece_numbers store request =
          .ok { piece_numbers := pieces.map (fun piece => piece.number) })
    ∧ (∀ e, store.get_all request.task_id = .error e →
        DfdaemonServerHandler.get_piece_numbers store request =
          .error (Status.internal e)) := by
  refine ⟨?_, ?_, ?_⟩
  · cases hg : store.get_all request.task_id with
    | error e =>
      simp [DfdaemonServerHandler.get_piece_numbers, hg, Status.internal,
        Status.not_found]
    | ok pieces =>
      cases pieces with
      | nil =>
        simp [DfdaemonServerHandler.get_piece_numbers, hg, Status.not_found]
      | cons p ps =>
        simp [DfdaemonServerHandler.get_piece_numbers, hg, Status.not_found]
  · intro pieces hg hne
    cases pieces with
    | nil => exact absurd rfl hne
    | cons p ps => simp [DfdaemonServerHandler.get_piece_numbers, hg]
  · intro e hg
    simp [DfdaemonServerHandler.get_piece_numbers, hg]

/-- A store whose enumeration of task "t" holds pieces numbered [0, 2, 1]
in that (unsorted) order. -/
def enumStoreUnsorted : PieceStore where
  get_all := fun task_id =>
    if task_id = "t" then
      .ok [{ number := 0, offset := 0, length := 4, digest := "d0" },
           { number := 2, offset := 8, length := 4, digest := "d2" },
           { number := 1, offset := 4, length := 4, digest := "d1" }]
    else .ok []
  get := fun _ _ => .ok none
  download_from_local_peer := fun _ _ => .error "open failure"

/-- A store whose enumeration is empty for every task. -/
def enumStoreEmpty : PieceStore where
  get_all := fun _ => .ok []
  get := fun _ _ => .ok none
  download_from_local_peer := fun _ _ => .error "open failure"

/-- A store whose enumeration fails for every task. -/
def enumStoreFailing : PieceStore where
  get_all := fun _ => .error "store failure"
  get := fun _ _ => .ok none
  download_from_local_peer := fun _ _ => .error "open failure"

theorem get_piece_numbers_notfound_iff_empty_witness :
    DfdaemonServerHandler.get_piece_numbers enumStoreUnsorted { task_id := "t" } =
      .ok { piece_numbers := [0, 2, 1] } ∧
    (∃ m, DfdaemonServerHandler.get_piece_numbers enumStoreEmpty { task_id := "t" } =
      .error (Status.not_found m)) ∧
    DfdaemonServerHandler.get_piece_numbers enumStoreFailing { task_id := "t" } =
      .error (Status.internal "store failure") := by
  refine ⟨?_, ?_, ?_⟩
  · have h := (get_piece_numbers_notfound_iff_empty enumStoreUnsorted
      { task_id := "t" }).2.1
      [{ number := 0, offset := 0, length := 4, digest := "d0" },
       { number := 2, offset := 8, length := 4, digest := "d2" },
       { number := 1, offset := 4, length := 4, digest := "d1" }]
      (by decide) (by decide)
    exact h.trans (by decide)
  · exact (get_piece_numbers_notfound_iff_empty enumStoreEmpty
      { task_id := "t" }).1.mpr (by decide)
  · exact (get_piece_numbers_notfound_iff_empty enumStoreFailing
      { task_id := "t" }).2.2 "store failure" (by decide)

/-- Claim C3 (amended): each completed-piece event delivered on the
engine's progress channel is relayed into the outbound stream in the
engine's emission order, as a success item; when the download invocation
itself fails the stream is exactly one terminal INTERNAL error item with no
success items; and in no stream does any item follow an error item. The
original claim's scenario — five success items followed by a terminal error
item — is impossible: a failure after the progress channel was obtained is
not surfaced as a stream item (the stream simply ends after the delivered
success items), as the counterexample shows. -/
theorem download_task_relay_in_order_terminal_error (engine : Download → DownloadOutcome)
    (request : DownloadTaskRequest) (download : Download)
    (h : request.download = some download) :
    (∀ fps, engine download = .ok fps →
      DfdaemonServerHandler.download_task engine request =
        .ok (fps.map downloadPieceItem))
    ∧ (∀ e, engine download = .error e →
      DfdaemonServerHandler.download_task engine request =
        .ok [.error (Status.internal e)])
    ∧ (∀ out, DfdaemonServerHandler.download_task engine request = .ok out →
      ∀ i j, (hi : i < out.length) → (hj : j < out.length) → i < j →
        isErrorItem (out.get ⟨i, hi⟩) = false) := by
  refine ⟨?_, ?_, ?_⟩
  · intro fps hfps
    simp [DfdaemonServerHandler.download_task, h, downloadTaskRelay, hfps]
  · intro e he
    simp [DfdaemonServerHandler.download_task, h, downloadTaskRelay, he]
  · intro out hout i j hi hj hij
    have hrelay : downloadTaskRelay (engine download) = out := by
      simpa [DfdaemonServerHandler.download_task, h] using hout
    cases heng : engine download with
    | ok fps =>
      rw [heng] at hrelay
      subst hrelay
      simp only [downloadTaskRelay] at hi ⊢
      rw [List.get_map]
      rfl
    | error e =>
      rw [heng] at hrelay
      subst hrelay
      simp only [downloadTaskRelay, List.length_singleton] at hi hj
      omega

/-- The completed-piece event for piece n used in concrete download-stream
evaluations. -/
def finishedPieceAt (n : Nat) : FinishedPiece where
  number := Int.ofNat n
  offset := 4 * n
  length := 4
  digest := "d"
  cost := some { secs := 1, nanos := 0 }
  created_at := { seconds := Int.ofNat n, nanos := 0 }

/-- Claim C3 counterexample: the claim's scenario — an engine that succeeds
on pieces 0..4 and then fails — cannot yield five success items followed by
a terminal error item. If the invocation succeeded and the progress channel
delivered the five pieces before the mid-download failure closed it, the
stream is five success items and contains no error item at all; if instead
the invocation itself failed, the stream is the single error item and
contains no success item. -/
theorem download_task_counterexample :
    (downloadTaskRelay (.ok ((List.range 5).map finishedPieceAt))).length = 5
    ∧ (downloadTaskRelay (.ok ((List.range 5).map finishedPieceAt))).countP
        (fun x => isErrorItem x) = 0
    ∧ downloadTaskRelay (.error "download failed") =
        [.error (Status.internal "download failed")]
    ∧ (downloadTaskRelay (.error "download failed")).countP
        (fun x => !(isErrorItem x)) = 0
    ∧ DfdaemonServerHandler.download_task
        (fun _ => .ok ((List.range 5).map finishedPieceAt))
        { download := some { url := "u", piece_length := 4, timeout := none } } =
        .ok ((List.range 5).map (fun n => downloadPieceItem (finishedPieceAt n))) := by
  decide

theorem download_task_relay_in_order_terminal_error_witness :
    DfdaemonServerHandler.download_task
        (fun _ => .ok [finishedPieceAt 0, finishedPieceAt 1])
        { download := some { url := "u", piece_length := 4, timeout := none } } =
      .ok [downloadPieceItem (finishedPieceAt 0), downloadPieceItem (finishedPieceAt 1)] ∧
    DfdaemonServerHandler.download_task (fun _ => .error "download failed")
        { download := some { url := "u", piece_length := 4, timeout := none } } =
      .ok [.error (Status.internal "download failed")] := by
  refine ⟨?_, ?_⟩
  · have h := (download_task_relay_in_order_terminal_error
      (fun _ => .ok [finishedPieceAt 0, finishedPieceAt 1])
      { download := some { url := "u", piece_length := 4, timeout := none } }
      { url := "u", piece_length := 4, timeout := none } rfl).1
      [finishedPieceAt 0, finishedPieceAt 1] rfl
    exact h.trans (by decide)
  · exact (download_task_relay_in_order_terminal_error
      (fun _ => .error "download failed")
      { download := some { url := "u", piece_length := 4, timeout := none } }
      { url := "u", piece_length := 4, timeout := none } rfl).2.1
      "download failed" rfl

/-- Claim C4: when the download parameters embed a timeout, the client's
DownloadTask request gets a deadline of exactly that timeout (its std
conversion, e.g. 5s wire timeout gives a 5s deadline, shown by the
witness); when no timeout is embedded, no deadline is set at all, unlike
every other client call, whose built request carries the fixed short
REQUEST_TIMEOUT deadline. -/
theorem client_download_task_timeout_policy (request : DownloadTaskRequest)
    (download : Download) (h : request.download = some download) :
    (∀ t d, download.timeout = some t → StdDuration.tryFromProst t = some d →
      DfdaemonClient.download_task request =
        .ok { message := request, timeout := some d })
    ∧ (download.timeout = none →
      DfdaemonClient.download_task request =
        .ok { message := request, timeout := none })
    ∧ (∀ r : GetPieceNumbersRequest,
        (DfdaemonClient.get_piece_numbers r).timeout = some REQUEST_TIMEOUT)
    ∧ (∀ r : SyncPiecesRequest,
        (DfdaemonClient.sync_pieces r).timeout = some REQUEST_TIMEOUT)
    ∧ (∀ r : UploadTaskRequest,
        (DfdaemonClient.upload_task r).timeout = some REQUEST_TIMEOUT)
    ∧ (∀ r : DfdaemonStatTaskRequest,
        (DfdaemonClient.stat_task r).timeout = some REQUEST_TIMEOUT)
    ∧ (∀ r : DeleteTaskRequest,
        (DfdaemonClient.delete_task r).timeout = some REQUEST_TIMEOUT) := by
  refine ⟨?_, ?_, ?_, ?_, ?_, ?_, ?_⟩
  · intro t d ht hd
    simp [DfdaemonClient.download_task, h, ht, hd]
  · intro ht
    simp [DfdaemonClient.download_task, h, ht]
  · intro r; rfl
  · intro r; rfl
  · intro r; rfl
  · intro r; rfl
  · intro r; rfl

/-- Download parameters embedding a five-second timeout, for the concrete
evaluation of the client timeout policy. -/
def downloadWith5s : Download where
  url := "u"
  piece_length := 4
  timeout := some { seconds := 5, nanos := 0 }

/-- Download parameters embedding no timeout, for the concrete evaluation
of the client timeout policy. -/
def downloadNoTimeout : Download where
  url := "u"
  piece_length := 4
  timeout := none

theorem client_download_task_timeout_policy_witness :
    DfdaemonClient.download_task { download := some downloadWith5s } =
      .ok { message := { download := some downloadWith5s }
            timeout := some { secs := 5, nanos := 0 } } ∧
    DfdaemonClient.download_task { download := some downloadNoTimeout } =
      .ok { message := { download := some downloadNoTimeout }
            timeout := none } ∧
    (DfdaemonClient.get_piece_numbers { task_id := "t" }).timeout =
      some REQUEST_TIMEOUT := by
  refine ⟨?_, ?_, ?_⟩
  · exact (client_download_task_timeout_policy { download := some downloadWith5s }
      downloadWith5s rfl).1 { seconds := 5, nanos := 0 } { secs := 5, nanos := 0 }
      rfl (by decide)
  · exact (client_download_task_timeout_policy { download := some downloadNoTimeout }
      downloadNoTimeout rfl).2.1 rfl
  · exact (client_download_task_timeout_policy { download := some downloadNoTimeout }
      downloadNoTimeout rfl).2.2.1 { task_id := "t" }

/-- Claim C5 (the code diverges from it): in DfdaemonServer::run as
written, the two transports are served sequentially, not concurrently — the
network (upload) server is awaited until its shutdown receiver fires and
only then is the unix domain socket bound and served. The run trace shows
the network transport stopping strictly before the unix transport starts,
and there is no point of the trace at which both transports are live. Each
transport still stops exactly once on its own shutdown receiver. -/
theorem dfdaemon_server_run_sequential_not_concurrent :
    DfdaemonServer.run =
      [ServerEvent.networkServing, ServerEvent.networkStopped,
       ServerEvent.unixServing, ServerEvent.unixStopped]
    ∧ (DfdaemonServer.run.count ServerEvent.networkStopped = 1
        ∧ DfdaemonServer.run.count ServerEvent.unixStopped = 1)
    ∧ (∀ i : Fin (DfdaemonServer.run.length + 1),
        ¬ (liveAt DfdaemonServer.run i ServerEvent.networkServing
              ServerEvent.networkStopped
           ∧ liveAt DfdaemonServer.run i ServerEvent.unixServing
              ServerEvent.unixStopped)) := by
  decide

/-- Claim C6: a SyncPieces request whose payload is not the
interested-pieces variant (the payload oneof has no other variant, so that
means a missing payload) fails with INVALID_ARGUMENT; the handler returns
the error instead of a stream, so no stream item is ever produced and no
producer is spawned. -/
theorem sync_pieces_rejects_missing_payload (store : PieceStore)
    (request : SyncPiecesRequest) (h : request.request = none) :
    DfdaemonServerHandler.sync_pieces store request =
      .error (Status.invalid_argument "missing interested pieces request") := by
  simp [DfdaemonServerHandler.sync_pieces, h]

theorem sync_pieces_rejects_missing_payload_witness :
    DfdaemonServerHandler.sync_pieces
        { get_all := fun _ => .ok []
          get := fun _ _ => .ok none
          download_from_local_peer := fun _ _ => .error "open failure" }
        { task_id := "t", request := none } =
      .error (Status.invalid_argument "missing interested pieces request") :=
  sync_pieces_rejects_missing_payload
    { get_all := fun _ => .ok []
      get := fun _ _ => .ok none
      download_from_local_peer := fun _ _ => .error "open failure" }
    { task_id := "t", request := none } rfl

/-- Claim C7: a server-side DownloadTask request without the download
parameters fails with INVALID_ARGUMENT, for every engine — the result does
not depend on the engine, so no producer is spawned and the engine is never
invoked. -/
theorem download_task_rejects_missing_download (engine : Download → DownloadOutcome)
    (request : DownloadTaskRequest) (h : request.download = none) :
    DfdaemonServerHandler.download_task engine request =
      .error (Status.invalid_argument "missing download") := by
  simp [DfdaemonServerHandler.download_task, h]

theorem download_task_rejects_missing_download_witness :
    DfdaemonServerHandler.download_task (fun _ => .error "engine invoked")
        { download := none } =
      .error (Status.invalid_argument "missing download") :=
  download_task_rejects_missing_download (fun _ => .error "engine invoked")
    { download := none } rfl

/-- Claim C8: StatTask re-wraps the request's task id into the scheduler's
own request shape, applies the fixed short REQUEST_TIMEOUT, forwards it to
the scheduler client, and returns the scheduler's response unchanged; a
scheduler connection failure is mapped to INTERNAL. -/
theorem stat_task_forwards_to_scheduler (scheduler_client : SchedulerClient)
    (request : DfdaemonStatTaskRequest) :
    (∀ e, scheduler_client.client = .error e →
      DfdaemonServerHandler.stat_task scheduler_client request =
        .error (Status.internal e))
    ∧ (∀ conn, scheduler_client.client = .ok conn →
      DfdaemonServerHandler.stat_task scheduler_client request =
        conn.stat_task { message := { id := request.task_id },
                         timeout := some REQUEST_TIMEOUT }) := by
  refine ⟨?_, ?_⟩
  · intro e he
    simp [DfdaemonServerHandler.stat_task, he]
  · intro conn hc
    simp [DfdaemonServerHandler.stat_task, hc]

theorem stat_task_forwards_to_scheduler_witness :
    DfdaemonServerHandler.stat_task
        { client := .ok { stat_task := fun r => .ok { id := r.message.id } } }
        { task_id := "t" } =
      .ok { id := "t" } ∧
    DfdaemonServerHandler.stat_task { client := .error "connection failure" }
        { task_id := "t" } =
      .error (Status.internal "connection failure") := by
  refine ⟨?_, ?_⟩
  · have h := (stat_task_forwards_to_scheduler
      { client := .ok { stat_task := fun r => .ok { id := r.message.id } } }
      { task_id := "t" }).2
      { stat_task := fun r => .ok { id := r.message.id } } rfl
    exact h.trans rfl
  · exact (stat_task_forwards_to_scheduler { client := .error "connection failure" }
      { task_id := "t" }).1 "connection failure" rfl

/-- Claim C9: UploadTask and DeleteTask both return the UNIMPLEMENTED
error for every request — an explicit failure on an existing route, never a
success. -/
theorem upload_delete_task_unimplemented (r1 : UploadTaskRequest)
    (r2 : DeleteTaskRequest) :
    DfdaemonServerHandler.upload_task r1 =
      .error (Status.unimplemented "not implemented")
    ∧ DfdaemonServerHandler.delete_task r2 =
      .error (Status.unimplemented "not implemented")
    ∧ (∀ u, DfdaemonServerHandler.upload_task r1 ≠ .ok u)
    ∧ (∀ u, DfdaemonServerHandler.delete_task r2 ≠ .ok u) := by
  refine ⟨rfl, rfl, ?_, ?_⟩
  · intro u hu
    exact Except.noConfusion hu
  · intro u hu
    exact Except.noConfusion hu

/-- Claim C10: the client wrapper's download_task fails locally with
INVALID_ARGUMENT when the request's download parameters are absent; no
request is built, so no RPC is issued and the server-side INVALID_ARGUMENT
path is unreachable through the wrapper. -/
theorem client_download_task_local_invalid_argument (request : DownloadTaskRequest)
    (h : request.download = none) :
    DfdaemonClient.download_task request =
      .error (Status.invalid_argument "missing download in download task request") := by
  simp [DfdaemonClient.download_task, h]

theorem client_download_task_local_invalid_argument_witness :
    DfdaemonClient.download_task { download := none } =
      .error (Status.invalid_argument "missing download in download task request") :=
  client_download_task_local_invalid_argument { download := none } rfl

end Dfdaemon
